import Mathlib

/-!
Verification development for a match-3 puzzle board engine.

The engine owns a rectangular grid of typed icons, validates swap moves
through a select operation, and is supposed to detect runs, collapse
columns and refill them while accumulating a score.  The definitions
below are a shallow embedding of the two Python source files
(GameImpl.py and BasicGenerator.py): Python lists become Lean lists,
Python list indexing (which wraps one time for negative indices and
raises IndexError otherwise) becomes an Except computation, and the
random number generator is modelled as an explicit stream of draws.
-/

namespace Match3

/-- Errors a Python operation in the embedded fragment can raise:
list indexing out of range, and the modulo operator with divisor zero. -/
inductive PyErr where
  | indexError
  | zeroDivisionError
deriving DecidableEq, Repr

/-- Python list read semantics: a negative index has the length added once;
the access succeeds exactly when the resulting index is in range, and
raises IndexError otherwise. -/
def pyGetL {α : Type} (l : List α) (i : Int) : Except PyErr α :=
  let j := if i < 0 then i + l.length else i
  if h : 0 ≤ j ∧ j.toNat < l.length then .ok (l.get ⟨j.toNat, h.2⟩)
  else .error .indexError

/-- Python list write semantics, with the same index normalization as
reads; returns the updated list value. -/
def pySetL {α : Type} (l : List α) (i : Int) (v : α) : Except PyErr (List α) :=
  let j := if i < 0 then i + l.length else i
  if 0 ≤ j ∧ j.toNat < l.length then .ok (l.set j.toNat v)
  else .error .indexError

/-- Python range with step -1: the integers start, start-1, ..., stop+1. -/
def pyRangeDown (start stop : Int) : List Int :=
  (List.range (start - stop).toNat).map (fun n => start - (n : Int))

/-- Python range with step 1: the integers start, start+1, ..., stop-1. -/
def pyRangeUp (start stop : Int) : List Int :=
  (List.range (stop - start).toNat).map (fun n => start + (n : Int))

/-- Modelled from the spec: BasicIcon (the file BasicIcon.py is not part
of the sources) wraps one integer icon type, observable through getType. -/
structure BasicIcon where
  type : Int
deriving DecidableEq, Repr

/-- Modelled from the spec: the getType accessor of BasicIcon. -/
def BasicIcon.getType (b : BasicIcon) : Int := b.type

/-- Embeds BasicGenerator from BasicGenerator.py: the constructor stores
numtypes and ignores the seed argument. -/
structure BasicGenerator where
  numtypes : Nat
deriving DecidableEq, Repr

/-- Embeds BasicGenerator.getJewelTypes. -/
def BasicGenerator.getJewelTypes (g : BasicGenerator) : Nat := g.numtypes

/-- Embeds BasicGenerator.generate.  The source computes
BasicIcon(math.floor(random.randint(0, numtypes))); the draw argument
stands for the value returned by random.randint(0, numtypes), which by
the Python documentation lies in the inclusive range from 0 to numtypes
(both endpoints included).  math.floor on an integer is the identity. -/
def BasicGenerator.generate (_g : BasicGenerator) (draw : Int) : BasicIcon :=
  ⟨draw⟩

/-- Content a Cell object can carry in its icon slot: nothing (None), a
BasicIcon, or - through the fillColumn slip that stores the generator
object itself as an icon - a BasicGenerator. -/
inductive CellContent where
  | empty
  | icn (i : BasicIcon)
  | genObj (g : BasicGenerator)
deriving DecidableEq, Repr

/-- Modelled from the spec: Cell (the file Cell.py is not part of the
sources) is a position given by row and column, the icon observed there,
and an optional previousRow recording where the icon came from. -/
structure Cell where
  row : Int
  col : Int
  icon : CellContent
  previousRow : Option Int
deriving DecidableEq, Repr

/-- Modelled from the spec: the getIcon accessor of Cell returns the icon
carried by the cell object. -/
def Cell.getIcon (c : Cell) : CellContent := c.icon

/-- Modelled from the spec: two cells are adjacent when they differ by
exactly one in exactly one of row or column (magnitude 1, not both axes). -/
def Cell.isAdjacent (a b : Cell) : Bool :=
  (a.row == b.row && (a.col - b.col == 1 || b.col - a.col == 1)) ||
  (a.col == b.col && (a.row - b.row == 1 || b.row - a.row == 1))

/-- Modelled from the spec: a cell position is inside a grid of the given
width and height when the row lies in [0, height) and the column lies in
[0, width).  The argument order matches the call sites in GameImpl.select,
which pass getWidth() first and getHeight() second. -/
def Cell.inGrid (a : Cell) (width height : Int) : Bool :=
  0 ≤ a.row && a.row < height && 0 ≤ a.col && a.col < width

/-- The grid of icons: a list of rows, each row a list of optional icons
(None marks an empty position). -/
abbrev Grid := List (List (Option BasicIcon))

/-- Embeds the state of a GameImpl object: dimensions, grid, score, the
stored generator, and the doMarkAndUpdateScore attribute that findRuns
assigns on the game object (absent until the first findRuns call). -/
structure Game where
  width : Int
  height : Int
  grid : Grid
  score : Int
  generator : BasicGenerator
  doMarkAndUpdateScore : Option Bool
deriving DecidableEq, Repr

/-- Embeds GameImpl.getIcon: reads grid[row][col] with Python indexing. -/
def getIcon (g : Game) (row col : Int) : Except PyErr (Option BasicIcon) := do
  let r ← pyGetL g.grid row
  pyGetL r col

/-- Embeds GameImpl.setIcon.  The source body is the reversed assignment
icon = self.grid[row][col] followed by return icon: it reads the current
grid entry into the local parameter and returns it, writing nothing.  The
icon argument is therefore dead; it is polymorphic because fillColumn
passes the generator object for it. -/
def setIcon {α : Type} (g : Game) (row col : Int) (_icon : α) :
    Except PyErr (Game × Option BasicIcon) := do
  let r ← pyGetL g.grid row
  let v ← pyGetL r col
  .ok (g, v)

/-- Embeds GameImpl.getWidth. -/
def getWidth (g : Game) : Int := g.width

/-- Embeds GameImpl.getHeight. -/
def getHeight (g : Game) : Int := g.height

/-- Embeds GameImpl.getScore. -/
def getScore (g : Game) : Int := g.score

/-- One Python grid cell assignment grid[row][col] = v: reads the row
(IndexError possible), then writes inside the row, then the row update is
reflected in the outer list (value semantics for the in-place mutation). -/
def gridWrite (g : Game) (row col : Int) (v : Option BasicIcon) :
    Except PyErr Game := do
  let r ← pyGetL g.grid row
  let r' ← pySetL r col v
  let grid' ← pySetL g.grid row r'
  .ok { g with grid := grid' }

/-- Embeds GameImpl.swapIcons: the source evaluates the right hand side
list - grid[k][l] first, then grid[i][j] - and then assigns grid[i][j]
and grid[k][l] in that order. -/
def swapIcons (g : Game) (i j k l : Int) : Except PyErr Game := do
  let b ← getIcon g k l
  let a ← getIcon g i j
  let g1 ← gridWrite g i j b
  gridWrite g1 k l a

/-- Embeds GameImpl.swapCells: re-indexes cells[0] and cells[1] and swaps
the grid entries at their positions. -/
def swapCells (g : Game) (cells : List Cell) : Except PyErr Game := do
  let c0 ← pyGetL cells 0
  let c1 ← pyGetL cells 1
  swapIcons g c0.row c0.col c1.row c1.col

/-- Embeds GameImpl.findRuns.  The source body is a stub: it creates an
empty list, assigns the constant False to the doMarkAndUpdateScore
attribute of the game object (regardless of the argument), and returns
the empty list.  Grid and score are untouched. -/
def findRuns (g : Game) (_doMarkAndUpdateScore : Bool) : List Cell × Game :=
  ([], { g with doMarkAndUpdateScore := some false })

/-- The icon conjunct of the select guard.  The source expression is
(not cells[0].getIcon()).__eq__(cells[1].getIcon()): the negation lands
on the first icon, so the left operand is a Python bool, and calling
bool.__eq__ with a non-bool, non-int argument (an icon object or None)
returns NotImplemented, which is truthy when the surrounding and-chain
tests it.  The conjunct therefore never rejects a pair of cells. -/
def selectIconGuard (_a _b : Cell) : Bool := true

/-- Embeds GameImpl.select.  The debugging block at the top runs
unconditionally (the tested attribute setDebug is a method object and
therefore truthy) and indexes cells[0] and cells[1]; then the guard
checks length, adjacency, the icon conjunct and bounds, swaps, probes
findRuns, and reverts the swap when no run was produced. -/
def select (g : Game) (cells : List Cell) : Except PyErr (Game × Bool) := do
  let c0 ← pyGetL cells 0
  let c1 ← pyGetL cells 1
  if cells.length == 2 && c0.isAdjacent c1 && selectIconGuard c0 c1
      && c0.inGrid (getWidth g) (getHeight g)
      && c1.inGrid (getWidth g) (getHeight g) then
    let g1 ← swapCells g cells
    let (runs, g2) := findRuns g1 false
    if runs.length == 0 then
      let g3 ← swapCells g2 cells
      .ok (g3, false)
    else
      .ok (g2, true)
  else
    .ok (g, false)

/-- The BASE_SCORE constant of GameImpl: score awarded for a three-cell run. -/
def BASE_SCORE : Int := 10

/-- The scoring formula stated by the documentation of GameImpl: a run of
length 3 + n is awarded BASE_SCORE times 2 to the n. -/
def specRunScore (runLength : Nat) : Int := BASE_SCORE * 2 ^ (runLength - 3)

/-- Embeds GameImpl.removeAndShiftUp: for i in range(pos, 1, -1) it calls
setIcon(i, col, getIcon(i - 1, col)) - both are reads in this
implementation since setIcon stores nothing - and finally returns
setIcon(0, col, None).  The game value is unchanged on success; the reads
can raise IndexError. -/
def removeAndShiftUp (g : Game) (pos col : Int) :
    Except PyErr (Game × Option BasicIcon) := do
  let _ ← (pyRangeDown pos 1).foldlM (fun (_ : Unit) i => do
      let v ← getIcon g (i - 1) col
      let _ ← setIcon g i col v
      pure ()) ()
  setIcon g 0 col (none : Option BasicIcon)

/-- Loop state of GameImpl.collapseColumn: the game object, the loop
indices i (current row, scanned bottom up) and j (count of removed
cells), and the accumulated list of moved cells. -/
structure CollapseState where
  g : Game
  i : Int
  j : Int
  c : List Cell
deriving DecidableEq, Repr

/-- One iteration of the while loop of GameImpl.collapseColumn.  When the
guard i >= j holds: a non-empty cell records a moved Cell (when j is not
zero) and decrements i; an empty cell calls removeAndShiftUp when i is
not 0, and then the source tests the class object itself against None
(if Cell is None), which is always false, so j and c are never updated on
this branch and the state is returned unchanged.  When the guard fails
the loop exits with the accumulated list. -/
def collapseStep (col : Int) (s : CollapseState) :
    Except PyErr (Sum CollapseState (List Cell)) :=
  if s.i ≥ s.j then do
    let icon ← getIcon s.g s.i col
    match icon with
    | some ic =>
        let a : Cell :=
          { row := s.i, col := col, icon := .icn ic, previousRow := some (s.i - s.j) }
        let c' := if a.previousRow ≠ some a.row then s.c ++ [a] else s.c
        .ok (.inl { s with i := s.i - 1, c := c' })
    | none => do
        let _ ← if s.i ≠ 0 then removeAndShiftUp s.g s.i col else .ok (s.g, none)
        .ok (.inl s)
  else .ok (.inr s.c)

/-- Runs the collapseColumn loop for at most fuel iterations; none means
the fuel ran out before the loop exited. -/
def collapseColumnRun (col : Int) : Nat → CollapseState →
    Except PyErr (Option (List Cell))
  | 0, _ => .ok none
  | n + 1, s => do
      match ← collapseStep col s with
      | .inl s' => collapseColumnRun col n s'
      | .inr cs => .ok (some cs)

/-- Embeds GameImpl.collapseColumn: the loop starts at i = getHeight() - 1
with j = 0 and an empty list of moved cells. -/
def collapseColumn (g : Game) (col : Int) (fuel : Nat) :
    Except PyErr (Option (List Cell)) :=
  collapseColumnRun col fuel { g := g, i := getHeight g - 1, j := 0, c := [] }

/-- Embeds GameImpl.fillColumn: for i in range(getHeight() - 1, 0, -1) -
note the loop never reaches row 0 - every empty cell is reported as a new
Cell whose icon is the generator object itself (the source assigns
icon = self.generator, without calling generate), with previousRow set to
n - 1 where n stays 0.  setIcon stores nothing, so the game is unchanged. -/
def fillColumn (g : Game) (col : Int) : Except PyErr (List Cell) :=
  (pyRangeDown (getHeight g - 1) 0).foldlM (fun (c : List Cell) i => do
      let v ← getIcon g i col
      if v = none then
        let icon := CellContent.genObj g.generator
        let _ ← setIcon g i col icon
        pure (c ++ [{ row := i, col := col, icon := icon,
                      previousRow := some (0 - 1) }])
      else pure c) []

/-- Embeds GameImpl.removeAllRuns: c collects the findRuns(True) result;
when that list is non-empty every column is collapsed and filled and the
moved and new cells are appended to c.  The fuel bounds each
collapseColumn loop; none means some collapse ran out of fuel.  The game
component carries the state after the call (findRuns only sets the
doMarkAndUpdateScore attribute; collapse and fill never write). -/
def removeAllRuns (g : Game) (fuel : Nat) :
    Except PyErr (Option (List (List Cell) × Game)) := do
  let (rem, g1) := findRuns g true
  let c := [rem]
  if rem.length > 0 then do
    let r ← (pyRangeUp 0 (getWidth g1)).foldlM
        (fun (acc : Option (List Cell × List Cell)) i => do
          match acc with
          | none => pure none
          | some (a, b) => do
              match ← collapseColumn g1 i fuel with
              | none => pure none
              | some as => do
                  let bs ← fillColumn g1 i
                  pure (some (a ++ as, b ++ bs))) (some ([], []))
    match r with
    | none => .ok none
    | some (a, b) => .ok (some (c ++ [a, b], g1))
  else .ok (some (c, g1))

/-- Embeds the stabilization loop of GameImpl.init: while findRuns(False)
is non-empty, call removeAllRuns.  Every evaluation of the condition sets
the doMarkAndUpdateScore attribute.  The fuel bounds the number of loop
iterations and the inner collapse loops; none means fuel ran out. -/
def stabilizeLoop : Game → Nat → Except PyErr (Option Game)
  | _, 0 => .ok none
  | g, n + 1 =>
      let (rem, g1) := findRuns g false
      if rem.length > 0 then do
        match ← removeAllRuns g1 n with
        | none => .ok none
        | some (_, g2) => stabilizeLoop g2 n
      else .ok (some g1)

/-- Python modulo: raises ZeroDivisionError on divisor zero; for a
positive divisor the result is the least non-negative representative,
which Int.emod also computes. -/
def pyMod (a b : Int) : Except PyErr Int :=
  if b = 0 then .error .zeroDivisionError else .ok (a % b)

/-- The stripe-advance block of BasicGenerator.initializeGrid (the body of
the if pattern is False branch): icon1 becomes (icon1 + 1) mod n, is
bumped past icon2 on collision, then icon2 becomes (icon1 + 1) mod n and
is bumped once more on collision with icon1. -/
def stripeAdvance (n icon1 icon2 : Int) : Except PyErr (Int × Int) := do
  let a1 ← pyMod (icon1 + 1) n
  let a2 ← if a1 = icon2 then pyMod (icon2 + 1) n else pure a1
  let b1 ← pyMod (a2 + 1) n
  let b2 ← if a2 = b1 then pyMod (a2 + 1) n else pure b1
  .ok (a2, b2)

/-- Loop state of BasicGenerator.initialize as it fills a grid: the
pattern flag, the two stripe icons, the grid built so far, and the index
of the next random draw to consume. -/
structure FillState where
  pattern : Bool
  icon1 : Int
  icon2 : Int
  grid : Grid
  k : Nat
deriving Repr

/-- One row of the fill loop of BasicGenerator.initialize: the pattern
flag toggles, the stripe icons advance when the flag is false, and then
every column of the row is assigned - a stripe icon when randIcons is
false, a fresh generate() draw otherwise - with the pattern flag toggling
after every cell. -/
def fillRow (gen : BasicGenerator) (randIcons : Bool) (draws : Nat → Int)
    (s : FillState) (i : Nat) : Except PyErr FillState := do
  let s := { s with pattern := !s.pattern }
  let s ← if s.pattern = false then do
        let (i1, i2) ← stripeAdvance (gen.getJewelTypes : Int) s.icon1 s.icon2
        pure { s with icon1 := i1, icon2 := i2 }
      else pure s
  let cols := List.range (s.grid.headD []).length
  pure (cols.foldl (fun s j =>
      let v : BasicIcon :=
        if randIcons = false then ⟨if s.pattern then s.icon1 else s.icon2⟩
        else gen.generate (draws s.k)
      { s with
        grid := s.grid.set i ((s.grid.getD i []).set j (some v)),
        k := if randIcons = false then s.k else s.k + 1,
        pattern := !s.pattern }) s)

/-- Embeds BasicGenerator.initialize, which fills every cell of the given
grid, either with the deterministic stripe pattern (randIcons false) or
with generate() draws (randIcons true).  The draws stream supplies the
successive random.randint results. -/
def fillGrid (gen : BasicGenerator) (grid : Grid) (randIcons : Bool)
    (draws : Nat → Int) : Except PyErr Grid := do
  let s0 : FillState := { pattern := false, icon1 := 0, icon2 := 1, grid := grid, k := 0 }
  let sFinal ← (List.range grid.length).foldlM (fillRow gen randIcons draws) s0
  pure sFinal.grid

/-- Embeds GameImpl.init: builds a height-by-width grid of None, has the
generator fill it (randIcons is passed as True), sets score to 0, runs
the stabilization loop, resets score to 0 and stores the generator.  The
source assigns the generator attribute only after the loop; the record
here carries it from the start, which is observable only if the loop body
ran, and findRuns always returns the empty list so it never does. -/
def gameInit (width height : Int) (generator : BasicGenerator)
    (draws : Nat → Int) (fuel : Nat) : Except PyErr (Option Game) := do
  let grid0 : Grid := List.replicate height.toNat (List.replicate width.toNat none)
  let grid1 ← fillGrid generator grid0 true draws
  let g0 : Game := { width := width, height := height, grid := grid1, score := 0,
                     generator := generator, doMarkAndUpdateScore := none }
  match ← stabilizeLoop g0 fuel with
  | none => .ok none
  | some g1 => .ok (some { g1 with score := 0 })

/-- A game state is well formed when the stored grid really has the
declared dimensions: non-negative width and height, one row list per row,
and every row of the declared width.  Every game the constructor produces
is well formed, and the data model fixes the dimensions for the lifetime
of the game. -/
def WellFormed (g : Game) : Prop :=
  0 ≤ g.width ∧ 0 ≤ g.height ∧ g.grid.length = g.height.toNat ∧
    ∀ r ∈ g.grid, r.length = g.width.toNat

instance (g : Game) : Decidable (WellFormed g) := by
  unfold WellFormed
  infer_instance

/-- Pure value-level form of one double grid assignment with already
normalized indices: reads the two entries, writes position (i, j) first
and position (k, l) second, reading row k from the once-updated grid as
the in-place Python mutation does. -/
def natGridSwap (gr : Grid) (i j k l : Nat) : Grid :=
  let b := (gr.getD k []).getD l none
  let a := (gr.getD i []).getD j none
  let g1 := gr.set i ((gr.getD i []).set j b)
  g1.set k ((g1.getD k []).set l a)

/-- One call of the public engine surface, for stating properties of call
sequences. -/
inductive ApiCall where
  | selectCall (cells : List Cell)
  | getIconCall (row col : Int)
  | setIconCall (row col : Int) (icon : Option BasicIcon)
  | getWidthCall
  | getHeightCall
  | getScoreCall
deriving Repr

/-- The game state after one public call.  Reads leave the state alone;
select and setIcon thread the state their embedding returns.  When a call
raises, the pre-call state is kept: no write path in the source touches
the score before an exception, so this convention is exact for the score. -/
def applyCall (g : Game) : ApiCall → Game
  | .selectCall cells =>
      match select g cells with
      | .ok p => p.1
      | .error _ => g
  | .setIconCall r c v =>
      match setIcon g r c v with
      | .ok p => p.1
      | .error _ => g
  | _ => g

/-- The game state after a sequence of public calls. -/
def applyCalls (g : Game) (cs : List ApiCall) : Game := cs.foldl applyCall g

/-- A well formed 2 by 2 game whose cells all hold icon type 0. -/
def G1 : Game :=
  { width := 2, height := 2,
    grid := [[some ⟨0⟩, some ⟨0⟩], [some ⟨0⟩, some ⟨0⟩]],
    score := 0, generator := ⟨3⟩, doMarkAndUpdateScore := none }

/-- The cell at position (0, 0) of G1, carrying its icon. -/
def cellA : Cell := { row := 0, col := 0, icon := .icn ⟨0⟩, previousRow := none }

/-- The cell at position (0, 1) of G1, carrying its icon. -/
def cellB : Cell := { row := 0, col := 1, icon := .icn ⟨0⟩, previousRow := none }

/-- A 1 by 3 game whose single row is a horizontal run of three icons of
type 0. -/
def G3 : Game :=
  { width := 3, height := 1,
    grid := [[some ⟨0⟩, some ⟨0⟩, some ⟨0⟩]],
    score := 0, generator := ⟨3⟩, doMarkAndUpdateScore := none }

/-- A 1 by 1 game holding icon type 0. -/
def G4 : Game :=
  { width := 1, height := 1, grid := [[some ⟨0⟩]],
    score := 0, generator := ⟨3⟩, doMarkAndUpdateScore := none }

/-- A 2-row, 1-column game holding icon types 0 and 1. -/
def G5 : Game :=
  { width := 1, height := 2, grid := [[some ⟨0⟩], [some ⟨1⟩]],
    score := 0, generator := ⟨3⟩, doMarkAndUpdateScore := none }

/-- A 1 by 1 game whose single cell is empty. -/
def G6 : Game :=
  { width := 1, height := 1, grid := [[none]],
    score := 0, generator := ⟨3⟩, doMarkAndUpdateScore := none }

/-- The game that gameInit builds from a 2 by 2 request with a generator
holding a single icon type and a constant-zero draw stream. -/
def G8res : Game :=
  { width := 2, height := 2,
    grid := [[some ⟨0⟩, some ⟨0⟩], [some ⟨0⟩, some ⟨0⟩]],
    score := 0, generator := ⟨1⟩, doMarkAndUpdateScore := some false }

/-! Helper lemmas about the embedded Python primitives. -/

theorem ebind_ok {ε α β : Type} (a : α) (f : α → Except ε β) :
    ((Except.ok a : Except ε α) >>= f) = f a := rfl

theorem ebind_error {ε α β : Type} (e : ε) (f : α → Except ε β) :
    ((Except.error e : Except ε α) >>= f) = Except.error e := rfl

theorem pyGetL_ok_nonneg {α : Type} (l : List α) (i : Int) (d : α)
    (h0 : 0 ≤ i) (h1 : i.toNat < l.length) :
    pyGetL l i = .ok (l.getD i.toNat d) := by
  unfold pyGetL
  have hneg : ¬ i < 0 := by omega
  simp only [hneg, if_false]
  rw [dif_pos ⟨h0, h1⟩]
  simp [List.getD_eq_getElem l d h1, List.getElem?_eq_getElem h1]

theorem pySetL_ok_nonneg {α : Type} (l : List α) (i : Int) (v : α)
    (h0 : 0 ≤ i) (h1 : i.toNat < l.length) :
    pySetL l i v = .ok (l.set i.toNat v) := by
  unfold pySetL
  have hneg : ¬ i < 0 := by omega
  simp only [hneg, if_false]
  rw [if_pos ⟨h0, h1⟩]

theorem pyGetL_zero {α : Type} (x : α) (xs : List α) :
    pyGetL (x :: xs) 0 = .ok x := by
  have := pyGetL_ok_nonneg (x :: xs) 0 x (by omega) (by simp)
  simpa using this

theorem pyGetL_one {α : Type} (x y : α) (xs : List α) :
    pyGetL (x :: y :: xs) 1 = .ok y := by
  have := pyGetL_ok_nonneg (x :: y :: xs) 1 x (by omega) (by simp)
  simpa using this

theorem pyGetL_ok_exists_iff {α : Type} (l : List α) (i : Int) :
    (∃ x, pyGetL l i = .ok x) ↔ (-(l.length : Int) ≤ i ∧ i < l.length) := by
  unfold pyGetL
  by_cases hneg : i < 0
  · simp only [hneg, if_true]
    by_cases h : 0 ≤ i + (l.length : Int) ∧ (i + (l.length : Int)).toNat < l.length
    · rw [dif_pos h]
      constructor
      · intro _; omega
      · intro _; exact ⟨_, rfl⟩
    · rw [dif_neg h]
      constructor
      · intro ⟨x, hx⟩; cases hx
      · intro hi; exact absurd ⟨by omega, by omega⟩ h
  · simp only [hneg, if_false]
    by_cases h : 0 ≤ i ∧ i.toNat < l.length
    · rw [dif_pos h]
      constructor
      · intro _; omega
      · intro _; exact ⟨_, rfl⟩
    · rw [dif_neg h]
      constructor
      · intro ⟨x, hx⟩; cases hx
      · intro hi; exact absurd ⟨by omega, by omega⟩ h

theorem pyGetL_error_iff {α : Type} (l : List α) (i : Int) :
    pyGetL l i = .error .indexError ↔ ¬(-(l.length : Int) ≤ i ∧ i < l.length) := by
  constructor
  · intro h hin
    obtain ⟨x, hx⟩ := (pyGetL_ok_exists_iff l i).2 hin
    rw [h] at hx; cases hx
  · intro hout
    unfold pyGetL
    by_cases hneg : i < 0
    · simp only [hneg, if_true]
      rw [dif_neg]
      intro h; exact hout ⟨by omega, by omega⟩
    · simp only [hneg, if_false]
      rw [dif_neg]
      intro h; exact hout ⟨by omega, by omega⟩

theorem pyGetL_neg_wrap {α : Type} (l : List α) (i : Int)
    (h0 : -(l.length : Int) ≤ i) (h1 : i < 0) :
    pyGetL l i = pyGetL l (i + l.length) := by
  unfold pyGetL
  have hge : ¬ (i + (l.length : Int)) < 0 := by omega
  simp only [h1, if_true, hge, if_false]

theorem list_set_getElem_self {α : Type} (l : List α) (n : Nat) (h : n < l.length) :
    l.set n l[n] = l := by
  apply List.ext_getElem
  · simp
  · intro m h1 h2
    by_cases hn : n = m
    · subst hn; simp [List.getElem_set_self]
    · simp [List.getElem_set_ne hn]

theorem getD_set_self {α : Type} (l : List α) (n : Nat) (a d : α)
    (h : n < l.length) :
    (l.set n a).getD n d = a := by
  rw [List.getD_eq_getElem _ d (by simpa using h)]
  exact List.getElem_set_self _

theorem getD_set_ne {α : Type} (l : List α) (m n : Nat) (a d : α) (h : m ≠ n) :
    (l.set m a).getD n d = l.getD n d := by
  by_cases hn : n < l.length
  · rw [List.getD_eq_getElem _ d (by simpa using hn), List.getD_eq_getElem _ d hn]
    exact List.getElem_set_ne h _
  · rw [List.getD_eq_default _ d (by simpa using (Nat.le_of_not_lt hn)),
        List.getD_eq_default _ d (Nat.le_of_not_lt hn)]

theorem getD_set_length {α : Type} (l : List (List α)) (m n : Nat) (r : List α)
    (hlen : r.length = (l.getD m []).length) :
    ((l.set m r).getD n []).length = (l.getD n []).length := by
  by_cases h : m = n
  · subst h
    by_cases hm : m < l.length
    · rw [getD_set_self _ _ _ _ hm, hlen]
    · rw [List.getD_eq_default _ _ (by simpa using (Nat.le_of_not_lt hm)),
          List.getD_eq_default _ _ (Nat.le_of_not_lt hm)]
  · rw [getD_set_ne _ _ _ _ _ h]

theorem ext_getD {α : Type} (l1 l2 : List α) (d : α) (hlen : l1.length = l2.length)
    (h : ∀ n, n < l1.length → l1.getD n d = l2.getD n d) : l1 = l2 := by
  apply List.ext_getElem hlen
  intro n h1 h2
  have := h n h1
  rwa [List.getD_eq_getElem l1 d h1, List.getD_eq_getElem l2 d h2] at this

theorem natGridSwap_length (gr : Grid) (i j k l : Nat) :
    (natGridSwap gr i j k l).length = gr.length := by
  simp [natGridSwap]

theorem getD_set_cases {α : Type} (l : List α) (m n : Nat) (a d : α)
    (hm : m < l.length) :
    (l.set m a).getD n d = if m = n then a else l.getD n d := by
  by_cases h : m = n
  · subst h; rw [if_pos rfl]; exact getD_set_self _ _ _ _ hm
  · rw [if_neg h]; exact getD_set_ne _ _ _ _ _ h

theorem natGridSwap_row_length (gr : Grid) (i j k l n : Nat) :
    ((natGridSwap gr i j k l).getD n []).length = (gr.getD n []).length := by
  simp only [natGridSwap]
  rw [getD_set_length _ _ _ _ (by simp), getD_set_length _ _ _ _ (by simp)]

theorem natGridSwap_getD (gr : Grid) (i j k l : Nat)
    (hi : i < gr.length) (hk : k < gr.length)
    (hj : j < (gr.getD i []).length) (hl : l < (gr.getD k []).length)
    (n m : Nat) :
    ((natGridSwap gr i j k l).getD n []).getD m none =
      if k = n ∧ l = m then (gr.getD i []).getD j none
      else if i = n ∧ j = m then (gr.getD k []).getD l none
      else (gr.getD n []).getD m none := by
  simp only [natGridSwap]
  generalize hB : (gr.getD k []).getD l none = B
  generalize hA : (gr.getD i []).getD j none = A
  generalize hrow1 : (gr.getD i []).set j B = row1
  generalize hg1 : gr.set i row1 = g1
  have hg1len : g1.length = gr.length := by rw [← hg1]; simp
  have hg1get : ∀ t, g1.getD t [] = if i = t then row1 else gr.getD t [] := by
    intro t; rw [← hg1]; exact getD_set_cases gr i t row1 [] hi
  have hrow1len : row1.length = (gr.getD i []).length := by rw [← hrow1]; simp
  have hkg1 : k < g1.length := by rw [hg1len]; exact hk
  have hlg1 : l < (g1.getD k []).length := by
    rw [hg1get k]
    by_cases h : i = k
    · rw [if_pos h, hrow1len, h]; exact hl
    · rw [if_neg h]; exact hl
  rw [getD_set_cases g1 k n _ [] hkg1]
  rw [apply_ite (fun r : List (Option BasicIcon) => r.getD m none)]
  rw [getD_set_cases _ l m A none hlg1]
  rw [hg1get, hg1get]
  rw [apply_ite (fun r : List (Option BasicIcon) => r.getD m none),
      apply_ite (fun r : List (Option BasicIcon) => r.getD m none)]
  have hrow1get : row1.getD m none = if j = m then B else (gr.getD i []).getD m none := by
    rw [← hrow1]; exact getD_set_cases _ j m B none hj
  rw [hrow1get]
  split_ifs <;> first
    | rfl
    | omega
    | (subst_vars; first | rfl | omega)

theorem natGridSwap_invol (gr : Grid) (i j k l : Nat)
    (hi : i < gr.length) (hk : k < gr.length)
    (hj : j < (gr.getD i []).length) (hl : l < (gr.getD k []).length) :
    natGridSwap (natGridSwap gr i j k l) i j k l = gr := by
  have hGlen : (natGridSwap gr i j k l).length = gr.length := natGridSwap_length gr i j k l
  have hGrow : ∀ t, ((natGridSwap gr i j k l).getD t []).length = (gr.getD t []).length :=
    fun t => natGridSwap_row_length gr i j k l t
  have hi' : i < (natGridSwap gr i j k l).length := by rw [hGlen]; exact hi
  have hk' : k < (natGridSwap gr i j k l).length := by rw [hGlen]; exact hk
  have hj' : j < ((natGridSwap gr i j k l).getD i []).length := by rw [hGrow]; exact hj
  have hl' : l < ((natGridSwap gr i j k l).getD k []).length := by rw [hGrow]; exact hl
  apply ext_getD _ _ [] (by rw [natGridSwap_length, natGridSwap_length])
  intro n _
  apply ext_getD _ _ none (by rw [natGridSwap_row_length, natGridSwap_row_length])
  intro m _
  rw [natGridSwap_getD _ i j k l hi' hk' hj' hl' n m]
  rw [natGridSwap_getD gr i j k l hi hk hj hl i j]
  rw [natGridSwap_getD gr i j k l hi hk hj hl k l]
  rw [natGridSwap_getD gr i j k l hi hk hj hl n m]
  split_ifs <;> first
    | rfl
    | omega
    | simp_all
    | (simp_all; omega)

theorem inGrid_bounds (c : Cell) (w h : Int) (hc : c.inGrid w h = true) :
    0 ≤ c.row ∧ c.row < h ∧ 0 ≤ c.col ∧ c.col < w := by
  simp only [Cell.inGrid, Bool.and_eq_true, decide_eq_true_eq] at hc
  exact ⟨hc.1.1.1, hc.1.1.2, hc.1.2, hc.2⟩

theorem wf_cell_bounds (g : Game) (hWF : WellFormed g) (c : Cell)
    (hc : c.inGrid (getWidth g) (getHeight g) = true) :
    0 ≤ c.row ∧ 0 ≤ c.col ∧ c.row.toNat < g.grid.length ∧
      c.col.toNat < (g.grid.getD c.row.toNat []).length := by
  obtain ⟨hw, hh, hlen, hrows⟩ := hWF
  obtain ⟨h1, h2, h3, h4⟩ := inGrid_bounds c _ _ hc
  have hgw : getWidth g = g.width := rfl
  have hgh : getHeight g = g.height := rfl
  rw [hgh] at h2
  rw [hgw] at h4
  have hr : c.row.toNat < g.grid.length := by omega
  refine ⟨h1, h3, hr, ?_⟩
  have hmem : g.grid.getD c.row.toNat [] ∈ g.grid := by
    rw [List.getD_eq_getElem _ _ hr]
    exact List.getElem_mem hr
  have := hrows _ hmem
  omega

theorem getIcon_ok (g : Game) (row col : Int) (h0r : 0 ≤ row) (h0c : 0 ≤ col)
    (hr : row.toNat < g.grid.length)
    (hc : col.toNat < (g.grid.getD row.toNat []).length) :
    getIcon g row col = .ok ((g.grid.getD row.toNat []).getD col.toNat none) := by
  unfold getIcon
  rw [pyGetL_ok_nonneg g.grid row [] h0r hr, ebind_ok,
      pyGetL_ok_nonneg _ col none h0c hc]

theorem gridWrite_ok (g : Game) (row col : Int) (v : Option BasicIcon)
    (h0r : 0 ≤ row) (h0c : 0 ≤ col) (hr : row.toNat < g.grid.length)
    (hc : col.toNat < (g.grid.getD row.toNat []).length) :
    gridWrite g row col v =
      .ok { g with
            grid := g.grid.set row.toNat ((g.grid.getD row.toNat []).set col.toNat v) } := by
  unfold gridWrite
  rw [pyGetL_ok_nonneg g.grid row [] h0r hr, ebind_ok,
      pySetL_ok_nonneg _ col v h0c hc, ebind_ok,
      pySetL_ok_nonneg g.grid row _ h0r hr, ebind_ok]

theorem swapIcons_ok (g : Game) (hWF : WellFormed g) (a b : Cell)
    (ha : a.inGrid (getWidth g) (getHeight g) = true)
    (hb : b.inGrid (getWidth g) (getHeight g) = true) :
    swapIcons g a.row a.col b.row b.col =
      .ok { g with
            grid := natGridSwap g.grid a.row.toNat a.col.toNat b.row.toNat b.col.toNat } := by
  obtain ⟨ha1, ha2, ha3, ha4⟩ := wf_cell_bounds g hWF a ha
  obtain ⟨hb1, hb2, hb3, hb4⟩ := wf_cell_bounds g hWF b hb
  unfold swapIcons
  rw [getIcon_ok g b.row b.col hb1 hb2 hb3 hb4, ebind_ok,
      getIcon_ok g a.row a.col ha1 ha2 ha3 ha4, ebind_ok,
      gridWrite_ok g a.row a.col _ ha1 ha2 ha3 ha4, ebind_ok]
  rw [gridWrite_ok _ b.row b.col _ hb1 hb2 (by simpa using hb3)
        (by rw [getD_set_length _ _ _ _ (by simp)]; exact hb4)]
  simp only [natGridSwap]

theorem natGridSwap_WF (g : Game) (hWF : WellFormed g) (i j k l : Nat)
    (hi : i < g.grid.length) (hk : k < g.grid.length) :
    WellFormed { g with grid := natGridSwap g.grid i j k l } := by
  obtain ⟨hw, hh, hlen, hrows⟩ := hWF
  refine ⟨hw, hh, ?_, ?_⟩
  · show (natGridSwap g.grid i j k l).length = g.height.toNat
    rw [natGridSwap_length]; exact hlen
  · intro r hr
    show r.length = g.width.toNat
    simp only [natGridSwap] at hr
    rcases List.mem_or_eq_of_mem_set hr with hr1 | rfl
    · rcases List.mem_or_eq_of_mem_set hr1 with hr2 | rfl
      · exact hrows r hr2
      · rw [List.length_set]
        rw [List.getD_eq_getElem _ _ hi]
        exact hrows _ (List.getElem_mem hi)
    · rw [List.length_set, getD_set_length _ _ _ _ (by simp)]
      rw [List.getD_eq_getElem _ _ hk]
      exact hrows _ (List.getElem_mem hk)

theorem swapCells_pair_ok (g : Game) (hWF : WellFormed g) (a b : Cell)
    (ha : a.inGrid (getWidth g) (getHeight g) = true)
    (hb : b.inGrid (getWidth g) (getHeight g) = true) :
    swapCells g [a, b] =
      .ok { g with
            grid := natGridSwap g.grid a.row.toNat a.col.toNat b.row.toNat b.col.toNat } := by
  unfold swapCells
  rw [pyGetL_zero, ebind_ok, pyGetL_one, ebind_ok]
  exact swapIcons_ok g hWF a b ha hb

theorem select_pair (g : Game) (hWF : WellFormed g) (a b : Cell) :
    select g [a, b] = .ok (g, false) ∨
    select g [a, b] = .ok ({ g with doMarkAndUpdateScore := some false }, false) := by
  unfold select
  rw [pyGetL_zero, ebind_ok, pyGetL_one, ebind_ok]
  by_cases hcond : ((a :: b :: []).length == 2 && a.isAdjacent b && selectIconGuard a b
      && a.inGrid (getWidth g) (getHeight g)
      && b.inGrid (getWidth g) (getHeight g)) = true
  · right
    rw [if_pos hcond]
    simp only [Bool.and_eq_true] at hcond
    obtain ⟨⟨⟨⟨_, _⟩, _⟩, ha⟩, hb⟩ := hcond
    obtain ⟨ha1, ha2, ha3, ha4⟩ := wf_cell_bounds g hWF a ha
    obtain ⟨hb1, hb2, hb3, hb4⟩ := wf_cell_bounds g hWF b hb
    rw [swapCells_pair_ok g hWF a b ha hb, ebind_ok]
    simp only [findRuns]
    set gswap : Game :=
      { g with
        grid := natGridSwap g.grid a.row.toNat a.col.toNat b.row.toNat b.col.toNat }
      with hgswap
    have hWF2 : WellFormed { gswap with doMarkAndUpdateScore := some false } := by
      have := natGridSwap_WF g hWF a.row.toNat a.col.toNat b.row.toNat b.col.toNat ha3 hb3
      exact this
    have ha' : a.inGrid (getWidth { gswap with doMarkAndUpdateScore := some false })
        (getHeight { gswap with doMarkAndUpdateScore := some false }) = true := ha
    have hb' : b.inGrid (getWidth { gswap with doMarkAndUpdateScore := some false })
        (getHeight { gswap with doMarkAndUpdateScore := some false }) = true := hb
    rw [show (([] : List Cell).length == 0) = true from rfl]
    rw [if_pos rfl]
    rw [swapCells_pair_ok _ hWF2 a b ha' hb', ebind_ok]
    have hgrid : natGridSwap gswap.grid a.row.toNat a.col.toNat b.row.toNat b.col.toNat
        = g.grid := by
      rw [hgswap]
      exact natGridSwap_invol g.grid _ _ _ _ ha3 hb3 ha4 hb4
    simp only [hgrid]
  · left
    rw [if_neg hcond]

theorem gridWrite_fields (g : Game) (row col : Int) (v : Option BasicIcon) (g' : Game)
    (h : gridWrite g row col v = .ok g') :
    g'.score = g.score ∧ g'.width = g.width ∧ g'.height = g.height := by
  unfold gridWrite at h
  cases h1 : pyGetL g.grid row with
  | error e => rw [h1, ebind_error] at h; exact Except.noConfusion h
  | ok r =>
    rw [h1, ebind_ok] at h
    cases h2 : pySetL r col v with
    | error e => rw [h2, ebind_error] at h; exact Except.noConfusion h
    | ok r' =>
      rw [h2, ebind_ok] at h
      cases h3 : pySetL g.grid row r' with
      | error e => rw [h3, ebind_error] at h; exact Except.noConfusion h
      | ok grid' =>
        rw [h3, ebind_ok] at h
        cases h
        exact ⟨rfl, rfl, rfl⟩

theorem swapIcons_fields (g : Game) (i j k l : Int) (g' : Game)
    (h : swapIcons g i j k l = .ok g') :
    g'.score = g.score ∧ g'.width = g.width ∧ g'.height = g.height := by
  unfold swapIcons at h
  cases h1 : getIcon g k l with
  | error e => rw [h1, ebind_error] at h; exact Except.noConfusion h
  | ok b =>
    rw [h1, ebind_ok] at h
    cases h2 : getIcon g i j with
    | error e => rw [h2, ebind_error] at h; exact Except.noConfusion h
    | ok a =>
      rw [h2, ebind_ok] at h
      cases h3 : gridWrite g i j b with
      | error e => rw [h3, ebind_error] at h; exact Except.noConfusion h
      | ok g1 =>
        rw [h3, ebind_ok] at h
        obtain ⟨f1, f2, f3⟩ := gridWrite_fields g i j b g1 h3
        obtain ⟨f4, f5, f6⟩ := gridWrite_fields g1 k l a g' h
        exact ⟨by rw [f4, f1], by rw [f5, f2], by rw [f6, f3]⟩

theorem swapCells_fields (g : Game) (cells : List Cell) (g' : Game)
    (h : swapCells g cells = .ok g') :
    g'.score = g.score ∧ g'.width = g.width ∧ g'.height = g.height := by
  unfold swapCells at h
  cases h1 : pyGetL cells 0 with
  | error e => rw [h1, ebind_error] at h; exact Except.noConfusion h
  | ok c0 =>
    rw [h1, ebind_ok] at h
    cases h2 : pyGetL cells 1 with
    | error e => rw [h2, ebind_error] at h; exact Except.noConfusion h
    | ok c1 =>
      rw [h2, ebind_ok] at h
      exact swapIcons_fields g _ _ _ _ g' h

theorem select_result (g : Game) (cells : List Cell) (p : Game × Bool)
    (h : select g cells = .ok p) :
    p.2 = false ∧ p.1.score = g.score := by
  unfold select at h
  cases h0 : pyGetL cells 0 with
  | error e => rw [h0, ebind_error] at h; exact Except.noConfusion h
  | ok c0 =>
    rw [h0, ebind_ok] at h
    cases h1 : pyGetL cells 1 with
    | error e => rw [h1, ebind_error] at h; exact Except.noConfusion h
    | ok c1 =>
      rw [h1, ebind_ok] at h
      by_cases hcond : (cells.length == 2 && c0.isAdjacent c1 && selectIconGuard c0 c1
          && c0.inGrid (getWidth g) (getHeight g)
          && c1.inGrid (getWidth g) (getHeight g)) = true
      · rw [if_pos hcond] at h
        cases hs : swapCells g cells with
        | error e => rw [hs, ebind_error] at h; exact Except.noConfusion h
        | ok g1 =>
          rw [hs, ebind_ok] at h
          simp only [findRuns] at h
          cases hs2 : swapCells { g1 with doMarkAndUpdateScore := some false } cells with
          | error e =>
              rw [hs2, ebind_error] at h; exact Except.noConfusion h
          | ok g3 =>
              rw [hs2, ebind_ok] at h
              cases h
              obtain ⟨f1, _, _⟩ := swapCells_fields g cells g1 hs
              obtain ⟨f4, _, _⟩ := swapCells_fields _ cells g3 hs2
              refine ⟨rfl, ?_⟩
              show g3.score = g.score
              rw [f4]
              exact f1
      · rw [if_neg hcond] at h
        cases h
        exact ⟨rfl, rfl⟩

theorem setIcon_state {α : Type} (g : Game) (row col : Int) (v : α) (p : Game × Option BasicIcon)
    (h : setIcon g row col v = .ok p) : p.1 = g := by
  unfold setIcon at h
  cases h1 : pyGetL g.grid row with
  | error e => rw [h1, ebind_error] at h; exact Except.noConfusion h
  | ok r =>
    rw [h1, ebind_ok] at h
    cases h2 : pyGetL r col with
    | error e => rw [h2, ebind_error] at h; exact Except.noConfusion h
    | ok x =>
      rw [h2, ebind_ok] at h
      cases h
      rfl

theorem applyCall_score (g : Game) (c : ApiCall) :
    (applyCall g c).score = g.score := by
  cases c with
  | selectCall cells =>
      show (match select g cells with | .ok p => p.1 | .error _ => g).score = g.score
      cases h : select g cells with
      | error e => rfl
      | ok p => exact (select_result g cells p h).2
  | setIconCall row col v =>
      show (match setIcon g row col v with | .ok p => p.1 | .error _ => g).score = g.score
      cases h : setIcon g row col v with
      | error e => rfl
      | ok p =>
          show p.1.score = g.score
          rw [setIcon_state g row col v p h]
  | getIconCall row col => rfl
  | getWidthCall => rfl
  | getHeightCall => rfl
  | getScoreCall => rfl

theorem applyCalls_score (cs : List ApiCall) : ∀ g : Game,
    (applyCalls g cs).score = g.score := by
  induction cs with
  | nil => intro g; rfl
  | cons c cs ih =>
      intro g
      show (applyCalls (applyCall g c) cs).score = g.score
      rw [ih (applyCall g c), applyCall_score]

theorem epure_eq_ok {ε α : Type} (a : α) : (pure a : Except ε α) = .ok a := rfl

theorem ite_bind_ok {ε α β : Type} (c : Prop) [Decidable c] (x y : α)
    (f : α → Except ε β) :
    ((if c then Except.ok x else Except.ok y) >>= f) = if c then f x else f y := by
  split_ifs <;> rfl

theorem pyMod_ok (a b : Int) (hb : b ≠ 0) : pyMod a b = .ok (a % b) := by
  unfold pyMod
  rw [if_neg hb]

theorem stripeAdvance_ok (n icon1 icon2 : Int) (hn : n ≠ 0) :
    ∃ p, stripeAdvance n icon1 icon2 = .ok p := by
  unfold stripeAdvance
  simp only [pyMod_ok _ _ hn, epure_eq_ok, ebind_ok, ite_bind_ok]
  split_ifs <;> exact ⟨_, rfl⟩

theorem fillRow_ok (gen : BasicGenerator) (hn : (gen.getJewelTypes : Int) ≠ 0)
    (randIcons : Bool) (draws : Nat → Int) (s : FillState) (i : Nat) :
    ∃ s', fillRow gen randIcons draws s i = .ok s' := by
  unfold fillRow
  by_cases hc : ({ s with pattern := !s.pattern } : FillState).pattern = false
  · rw [if_pos hc]
    obtain ⟨⟨i1, i2⟩, hQ⟩ := stripeAdvance_ok (gen.getJewelTypes : Int)
      ({ s with pattern := !s.pattern } : FillState).icon1
      ({ s with pattern := !s.pattern } : FillState).icon2 hn
    rw [hQ]
    exact ⟨_, rfl⟩
  · rw [if_neg hc]
    exact ⟨_, rfl⟩

theorem foldlM_ok_of {σ β : Type} (f : σ → β → Except PyErr σ)
    (hf : ∀ s x, ∃ s', f s x = .ok s') :
    ∀ (l : List β) (s : σ), ∃ s', l.foldlM f s = .ok s' := by
  intro l
  induction l with
  | nil => intro s; exact ⟨s, rfl⟩
  | cons x xs ih =>
      intro s
      obtain ⟨s1, h1⟩ := hf s x
      obtain ⟨s2, h2⟩ := ih s1
      refine ⟨s2, ?_⟩
      rw [List.foldlM_cons, h1, ebind_ok, h2]

theorem fillGrid_ok (gen : BasicGenerator) (hn : (gen.getJewelTypes : Int) ≠ 0)
    (grid : Grid) (randIcons : Bool) (draws : Nat → Int) :
    ∃ gr, fillGrid gen grid randIcons draws = .ok gr := by
  unfold fillGrid
  obtain ⟨s', hs⟩ := foldlM_ok_of (fillRow gen randIcons draws)
    (fillRow_ok gen hn randIcons draws) (List.range grid.length)
    { pattern := false, icon1 := 0, icon2 := 1, grid := grid, k := 0 }
  exact ⟨s'.grid, by simp only [hs, ebind_ok, epure_eq_ok]⟩

theorem stabilizeLoop_succ (g : Game) (fuel : Nat) :
    stabilizeLoop g (fuel + 1) = .ok (some { g with doMarkAndUpdateScore := some false }) := by
  simp [stabilizeLoop, findRuns]

theorem pyGetL_mem {α : Type} (l : List α) (i : Int) (x : α)
    (h : pyGetL l i = .ok x) : x ∈ l := by
  unfold pyGetL at h
  by_cases hneg : i < 0
  · simp only [hneg, if_true] at h
    by_cases hc : 0 ≤ i + (l.length : Int) ∧ (i + (l.length : Int)).toNat < l.length
    · rw [dif_pos hc] at h
      have hx := Except.ok.inj h
      rw [← hx]
      exact List.get_mem l _ _
    · rw [dif_neg hc] at h
      exact Except.noConfusion h
  · simp only [hneg, if_false] at h
    by_cases hc : 0 ≤ i ∧ i.toNat < l.length
    · rw [dif_pos hc] at h
      have hx := Except.ok.inj h
      rw [← hx]
      exact List.get_mem l _ _
    · rw [dif_neg hc] at h
      exact Except.noConfusion h

theorem wf_grid_length (g : Game) (hWF : WellFormed g) :
    (g.grid.length : Int) = g.height := by
  obtain ⟨_, hh, hlen, _⟩ := hWF
  omega

theorem wf_row_mem_length (g : Game) (hWF : WellFormed g)
    (r : List (Option BasicIcon)) (hr : r ∈ g.grid) :
    (r.length : Int) = g.width := by
  obtain ⟨hw, _, _, hrows⟩ := hWF
  have := hrows r hr
  omega

/-! The claims. -/

/-- C1: atomicity of rejected moves - for every (well formed) game state
and every pair of cells a, b, if select on the pair returns false then the
grid contents and the score after the call equal their values before the
call. -/
theorem claim_C1_rejected_move_atomicity (g : Game) (hWF : WellFormed g)
    (a b : Cell) (g' : Game) (h : select g [a, b] = .ok (g', false)) :
    g'.grid = g.grid ∧ g'.score = g.score := by
  rcases select_pair g hWF a b with hs | hs
  · rw [h] at hs
    have h3 := Except.ok.inj hs
    have h4 : g' = g := congrArg Prod.fst h3
    rw [h4]
    exact ⟨rfl, rfl⟩
  · rw [h] at hs
    have h3 := Except.ok.inj hs
    have h4 : g' = { g with doMarkAndUpdateScore := some false } := congrArg Prod.fst h3
    rw [h4]
    exact ⟨rfl, rfl⟩

/-- Witness for C1: on the concrete game G1 and the adjacent cells cellA
and cellB, select returns false and the theorem yields grid and score
preservation. -/
theorem claim_C1_witness :
    ({ G1 with doMarkAndUpdateScore := some false } : Game).grid = G1.grid ∧
    ({ G1 with doMarkAndUpdateScore := some false } : Game).score = G1.score :=
  claim_C1_rejected_move_atomicity G1 (by decide) cellA cellB
    { G1 with doMarkAndUpdateScore := some false } rfl

/-- C2: move-precondition rejection - for every (well formed) game state
and cells a, b, if the two cells are not grid-adjacent, or either is out
of bounds, or the icons currently at the two positions are equal, then
select on the pair returns false and leaves grid and score unchanged; in
particular a swap of two same-icon cells is always rejected. -/
theorem claim_C2_precondition_rejection (g : Game) (hWF : WellFormed g) (a b : Cell)
    (h : a.isAdjacent b = false ∨ a.inGrid (getWidth g) (getHeight g) = false ∨
         b.inGrid (getWidth g) (getHeight g) = false ∨
         getIcon g a.row a.col = getIcon g b.row b.col) :
    ∃ g', select g [a, b] = .ok (g', false) ∧ g'.grid = g.grid ∧ g'.score = g.score := by
  rcases select_pair g hWF a b with hs | hs
  · exact ⟨g, hs, rfl, rfl⟩
  · exact ⟨{ g with doMarkAndUpdateScore := some false }, hs, rfl, rfl⟩

/-- Witness for C2: the two adjacent cells of G1 hold equal icons, and
select still returns false with no mutation. -/
theorem claim_C2_witness :
    ∃ g', select G1 [cellA, cellB] = .ok (g', false) ∧
      g'.grid = G1.grid ∧ g'.score = G1.score :=
  claim_C2_precondition_rejection G1 (by decide) cellA cellB
    (Or.inr (Or.inr (Or.inr rfl)))

/-- C3: the scoring claim fails on the code - on the 1 by 3 grid G3 that
contains a horizontal run of length 3, findRuns with markAndScore true
returns the empty list and adds nothing to the score, although the
documented formula specRunScore gives 10 points for that run. -/
theorem claim_C3_scoring_stub :
    (findRuns G3 true).1 = [] ∧ (findRuns G3 true).2.score = G3.score ∧
    specRunScore 3 = 10 ∧
    (findRuns G3 true).2.score ≠ G3.score + specRunScore 3 := by
  refine ⟨rfl, rfl, by norm_num [specRunScore, BASE_SCORE], ?_⟩
  norm_num [findRuns, G3, specRunScore, BASE_SCORE]

/-- C4: the write-accessor claim fails on the code - on the 1 by 1 game G4
holding icon 0, setIcon of icon 1 returns the unchanged game together with
the old entry, and getIcon afterwards still reads icon 0, not icon 1. -/
theorem claim_C4_setIcon_does_not_write :
    setIcon G4 0 0 (some (⟨1⟩ : BasicIcon)) = .ok (G4, some ⟨0⟩) ∧
    getIcon G4 0 0 = .ok (some ⟨0⟩) ∧
    (some (⟨0⟩ : BasicIcon)) ≠ (some (⟨1⟩ : BasicIcon)) :=
  ⟨rfl, rfl, by decide⟩

/-- Counterexample for C5: the index (-1, 0) lies outside the claimed
domain of G5 (2 rows, 1 column), yet both accessors succeed - Python
wraps the negative index to the last row - instead of failing. -/
theorem claim_C5_counterexample :
    getIcon G5 (-1) 0 = .ok (some ⟨1⟩) ∧
    setIcon G5 (-1) 0 (none : Option BasicIcon) = .ok (G5, some ⟨1⟩) ∧
    ((-1 : Int) < 0) :=
  ⟨rfl, rfl, by decide⟩

/-- C5 amended: on a well formed game the accessors raise IndexError
exactly when the row lies outside the interval from -height to height - 1
or the column outside the interval from -width to width - 1; a negative
in-range row wraps to row + height (the column wraps likewise inside
pyGetL), so such indices return a value instead of failing. -/
theorem claim_C5_bounds_amended (g : Game) (hWF : WellFormed g)
    (row col : Int) (v : Option BasicIcon) :
    ((-g.height ≤ row ∧ row < g.height ∧ -g.width ≤ col ∧ col < g.width) →
        (∃ x, getIcon g row col = .ok x) ∧
        (∃ y, setIcon g row col v = .ok (g, y))) ∧
    (¬(-g.height ≤ row ∧ row < g.height ∧ -g.width ≤ col ∧ col < g.width) →
        getIcon g row col = .error .indexError ∧
        setIcon g row col v = .error .indexError) ∧
    ((-g.height ≤ row ∧ row < 0) →
        getIcon g row col = getIcon g (row + g.height) col ∧
        setIcon g row col v = setIcon g (row + g.height) col v) := by
  have hlen := wf_grid_length g hWF
  refine ⟨?_, ?_, ?_⟩
  · rintro ⟨h1, h2, h3, h4⟩
    obtain ⟨r, hr⟩ := (pyGetL_ok_exists_iff g.grid row).2 ⟨by omega, by omega⟩
    have hrw := wf_row_mem_length g hWF r (pyGetL_mem _ _ _ hr)
    obtain ⟨x, hx⟩ := (pyGetL_ok_exists_iff r col).2 ⟨by omega, by omega⟩
    constructor
    · exact ⟨x, by unfold getIcon; rw [hr, ebind_ok, hx]⟩
    · exact ⟨x, by unfold setIcon; rw [hr, ebind_ok, hx, ebind_ok]⟩
  · intro hout
    by_cases hrow : -g.height ≤ row ∧ row < g.height
    · obtain ⟨r, hr⟩ := (pyGetL_ok_exists_iff g.grid row).2 ⟨by omega, by omega⟩
      have hrw := wf_row_mem_length g hWF r (pyGetL_mem _ _ _ hr)
      have hce : pyGetL r col = .error .indexError := by
        rw [pyGetL_error_iff]
        intro hc
        exact hout ⟨hrow.1, hrow.2, by omega, by omega⟩
      constructor
      · unfold getIcon; rw [hr, ebind_ok, hce]
      · unfold setIcon; rw [hr, ebind_ok, hce, ebind_error]
    · have hre : pyGetL g.grid row = .error .indexError := by
        rw [pyGetL_error_iff]
        intro hc
        exact hrow ⟨by omega, by omega⟩
      constructor
      · unfold getIcon; rw [hre, ebind_error]
      · unfold setIcon; rw [hre, ebind_error]
  · rintro ⟨h1, h2⟩
    have hw := pyGetL_neg_wrap g.grid row (by omega) h2
    have harg : row + (g.grid.length : Int) = row + g.height := by omega
    rw [harg] at hw
    constructor
    · unfold getIcon; rw [hw]
    · unfold setIcon; rw [hw]

/-- Witness for C5: the amended bounds theorem applied to the concrete
game G5 at row 5, column 0. -/
theorem claim_C5_witness :
    ((-G5.height ≤ (5 : Int) ∧ (5 : Int) < G5.height ∧
        -G5.width ≤ (0 : Int) ∧ (0 : Int) < G5.width) →
        (∃ x, getIcon G5 5 0 = .ok x) ∧
        (∃ y, setIcon G5 5 0 (none : Option BasicIcon) = .ok (G5, y))) ∧
    (¬(-G5.height ≤ (5 : Int) ∧ (5 : Int) < G5.height ∧
        -G5.width ≤ (0 : Int) ∧ (0 : Int) < G5.width) →
        getIcon G5 5 0 = .error .indexError ∧
        setIcon G5 5 0 (none : Option BasicIcon) = .error .indexError) ∧
    ((-G5.height ≤ (5 : Int) ∧ (5 : Int) < 0) →
        getIcon G5 5 0 = getIcon G5 (5 + G5.height) 0 ∧
        setIcon G5 5 0 (none : Option BasicIcon) =
          setIcon G5 (5 + G5.height) 0 (none : Option BasicIcon)) :=
  claim_C5_bounds_amended G5 (by decide) 5 0 none

/-- C6: the termination claim fails on the code - on the concrete game G6
whose single column contains an empty cell, the collapseColumn loop never
exits: for every fuel bound the loop is still running (the loop state
repeats exactly, because the source tests the class Cell against None and
its setIcon never writes). -/
theorem claim_C6_collapse_diverges (fuel : Nat) :
    collapseColumn G6 0 fuel = .ok none := by
  have hstate : ({ g := G6, i := getHeight G6 - 1, j := 0, c := [] } : CollapseState)
      = { g := G6, i := 0, j := 0, c := [] } := by decide
  have hstep : collapseStep 0 { g := G6, i := 0, j := 0, c := [] } =
      .ok (.inl { g := G6, i := 0, j := 0, c := [] }) := rfl
  have key : ∀ n, collapseColumnRun 0 n { g := G6, i := 0, j := 0, c := [] } = .ok none := by
    intro n
    induction n with
    | zero => rfl
    | succ m ih =>
        show (collapseStep 0 { g := G6, i := 0, j := 0, c := [] } >>= fun r =>
          match r with
          | .inl s' => collapseColumnRun 0 m s'
          | .inr cs => .ok (some cs)) = .ok none
        rw [hstep, ebind_ok]
        exact ih
  unfold collapseColumn
  rw [hstate]
  exact key fuel

/-- C7: the generator range claim fails on the code - random.randint has
an inclusive upper bound, so the draw value 3 is admissible for a
generator with numTypes 3, and generate then returns icon type 3, which
is not strictly below numTypes. -/
theorem claim_C7_generator_range :
    ((⟨3⟩ : BasicGenerator).generate 3).getType = 3 ∧
    (0 : Int) ≤ 3 ∧ (3 : Int) ≤ ((⟨3⟩ : BasicGenerator).numtypes : Int) ∧
    ¬ ((⟨3⟩ : BasicGenerator).generate 3).getType <
        ((⟨3⟩ : BasicGenerator).numtypes : Int) := by
  refine ⟨rfl, by norm_num, by norm_num, by norm_num [BasicGenerator.generate, BasicIcon.getType]⟩

/-- Counterexample for C8: construction with a generator holding a single
icon type (numTypes 1 is below 3) completes normally and produces a game
object; no InvalidConfiguration error is raised - no such check exists in
the code. -/
theorem claim_C8_counterexample :
    gameInit 2 2 ⟨1⟩ (fun _ => 0) 1 = .ok (some G8res) := rfl

/-- C8 amended: construction performs no configuration validation at all.
For every width and height (including non-positive values) and every
generator with at least one icon type, gameInit completes and returns a
game object; the fuel argument only bounds the stabilization loop, which
exits at once since findRuns always returns the empty list. -/
theorem claim_C8_no_validation_amended (w h : Int) (n : Nat)
    (draws : Nat → Int) (fuel : Nat) :
    ∃ g, gameInit w h ⟨n + 1⟩ draws (fuel + 1) = .ok (some g) := by
  have hn : (((⟨n + 1⟩ : BasicGenerator).getJewelTypes : Int)) ≠ 0 := by
    show ((n + 1 : Nat) : Int) ≠ 0
    exact_mod_cast Nat.succ_ne_zero n
  obtain ⟨gr, hg⟩ := fillGrid_ok ⟨n + 1⟩ hn
    (List.replicate h.toNat (List.replicate w.toNat none)) true draws
  refine ⟨{ width := w, height := h, grid := gr, score := 0, generator := ⟨n + 1⟩,
            doMarkAndUpdateScore := some false }, ?_⟩
  simp only [gameInit]
  rw [hg, ebind_ok, stabilizeLoop_succ, ebind_ok]

/-- C9: score monotonicity - across every sequence of public calls the
score never decreases (in this implementation it is in fact constant:
nothing after construction ever writes the score). -/
theorem claim_C9_score_monotone (g : Game) (cs : List ApiCall) :
    getScore g ≤ getScore (applyCalls g cs) := by
  unfold getScore
  rw [applyCalls_score]

/-- C10: findRuns always returns the empty list, and consequently select
never returns true and never commits a swap - every call that returns at
all returns false with the grid and score unchanged. -/
theorem claim_C10_no_accepted_moves :
    (∀ (g : Game) (flag : Bool), (findRuns g flag).1 = []) ∧
    (∀ (g : Game), WellFormed g → ∀ (a b : Cell) (p : Game × Bool),
        select g [a, b] = .ok p →
        p.2 = false ∧ p.1.grid = g.grid ∧ p.1.score = g.score) := by
  constructor
  · intro g flag; rfl
  · intro g hWF a b p h
    rcases select_pair g hWF a b with hs | hs
    · rw [h] at hs
      have h3 := Except.ok.inj hs
      rw [h3]
      exact ⟨rfl, rfl, rfl⟩
    · rw [h] at hs
      have h3 := Except.ok.inj hs
      rw [h3]
      exact ⟨rfl, rfl, rfl⟩

/-- Witness for C10: instantiated on the concrete game G1 with its two
adjacent cells. -/
theorem claim_C10_witness :
    (findRuns G1 true).1 = [] ∧
    (((({ G1 with doMarkAndUpdateScore := some false } : Game), false) : Game × Bool).2 = false ∧
     ((({ G1 with doMarkAndUpdateScore := some false } : Game), false) : Game × Bool).1.grid = G1.grid ∧
     ((({ G1 with doMarkAndUpdateScore := some false } : Game), false) : Game × Bool).1.score = G1.score) :=
  ⟨claim_C10_no_accepted_moves.1 G1 true,
   claim_C10_no_accepted_moves.2 G1 (by decide) cellA cellB
     ({ G1 with doMarkAndUpdateScore := some false }, false) rfl⟩

end Match3
